import Mathlib

/-!
# Verification of the ts-stick on-screen input controls

A shallow embedding of the input-geometry and state-machine logic of the
four controllers of the ts-stick library
(`Button.ts`, `Dpad.ts`, `Joystick.ts`, `RetractableSlider.ts`):

* pointer coordinates and rectangle geometry are modelled over `ℝ`
  (JavaScript numbers, ignoring floating-point rounding of the primitive
  arithmetic — the only rounding the code performs deliberately,
  `toFixed(2)` and `Math.round`, is modelled exactly);
* each controller instance's mutable fields become a Lean structure, and
  each DOM event handler becomes a function from old state (plus the
  pointer event, and — where the handler itself reads the live layout via
  `getBoundingClientRect` — the current live rectangle) to the pair of the
  new state and the list of user-callback invocations it performs, in order;
* user-supplied callback functions are modelled symbolically: a controller
  stores either the library's built-in default closure or an opaque
  user-supplied function identified by a natural number; an emitted event
  records which stored callback was invoked and with which payload;
* purely presentational actions (colors, CSS text, SVG building, logging)
  are either omitted or reduced to the one field a claim mentions
  (e.g. element opacity, the joystick thumb's translate offset).

Definitions are translated from the TypeScript sources; each definition's
doc comment names the source method it embeds.
-/

/-- A user-visible callback slot of a controller: either the library's
built-in default closure (a console logger), or a user-supplied function,
identified symbolically. -/
inductive Callback where
  | default
  | user (id : ℕ)
deriving DecidableEq, Repr

/-- A DOMRect as cached by the controllers (`getBoundingClientRect`). -/
structure Rect where
  left : ℝ
  top : ℝ
  width : ℝ
  height : ℝ

/-- The part of a DOM `PointerEvent` the controllers read. -/
structure PointerEv where
  pointerId : ℤ
  clientX : ℝ
  clientY : ℝ

/-- Where an event listener was attached by a controller's `init`. -/
inductive ListenTarget where
  | container
  | base
deriving DecidableEq, Repr

/-- DOM event kinds the controllers register listeners for. -/
inductive DomEventKind where
  | pointerdown
  | pointermove
  | pointerup
  | pointercancel
deriving DecidableEq, Repr

/-- An event-listener registration performed by a controller's `init`:
the element it was attached to, the event kind, and the handler. -/
structure Registration (H : Type) where
  target : ListenTarget
  kind : DomEventKind
  handler : H

/-! ## ButtonController (`Button.ts`) -/

/-- Mutable state of a `ButtonController` (`Button.ts`).  Rendering-only
fields (uid, colors, sizes, shadow, svg, logging flag) are omitted; the
button's visual feedback is reduced to its element opacity. -/
structure ButtonController where
  /-- installed `onPressCallback` (user option, or the default logger) -/
  onPressCallback : Callback
  /-- installed `onReleaseCallback` (user option, or the default logger) -/
  onReleaseCallback : Callback
  /-- `isPressed` flag -/
  isPressed : Bool
  /-- `base.style.opacity` (a rational: the code only writes "0.6"/"0.8") -/
  baseOpacity : ℚ
deriving DecidableEq, Repr

/-- A callback invocation performed by a button handler. -/
inductive ButtonEmit where
  | press (cb : Callback)
  | release (cb : Callback)
deriving DecidableEq, Repr

/-- Embedding of `ButtonController.onButtonUp`: early-returns when not
pressed; otherwise clears `isPressed`, restores opacity and invokes the
installed release callback (the `if (this.onReleaseCallback)` guard in the
source always holds, the constructor installs a default). -/
def ButtonController.onButtonUp (s : ButtonController) :
    ButtonController × List ButtonEmit :=
  if s.isPressed = false then (s, [])
  else ({ s with isPressed := false, baseOpacity := 3/5 },
        [.release s.onReleaseCallback])

/-- Embedding of `ButtonController.onButtonDown`: early-returns when
already pressed; otherwise sets `isPressed`, raises opacity and invokes
the installed press callback. -/
def ButtonController.onButtonDown (s : ButtonController) :
    ButtonController × List ButtonEmit :=
  if s.isPressed then (s, [])
  else ({ s with isPressed := true, baseOpacity := 4/5 },
        [.press s.onPressCallback])

/-- The state-changing event-listener registrations performed by
`ButtonController.init`: `pointerup` and `pointerdown`, both attached to
`this.container` (not to the button's own `base` element).  The further
listeners `init` adds (`touchstart`, `touchmove`, `touchend`,
`touchcancel`, `selectstart`, `contextmenu`) only call `preventDefault`
and never touch controller state, so they are not modelled. -/
def ButtonController.initRegistrations :
    List (Registration (ButtonController → ButtonController × List ButtonEmit)) :=
  [ ⟨.container, .pointerup, ButtonController.onButtonUp⟩,
    ⟨.container, .pointerdown, ButtonController.onButtonDown⟩ ]

/-- A concrete already-pressed button state. -/
def pressedButton : ButtonController :=
  { onPressCallback := .default
    onReleaseCallback := .default
    isPressed := true
    baseOpacity := 4/5 }

/-- A concrete released button state. -/
def releasedButton : ButtonController :=
  { onPressCallback := .default
    onReleaseCallback := .default
    isPressed := false
    baseOpacity := 3/5 }

/-- Claim C9, counterexample: starting from an already-pressed state,
two consecutive press events without an intervening release fire
`onPress` zero times — not exactly once as the claim states for
"any state". -/
theorem button_double_press_from_pressed_cex :
    pressedButton.onButtonDown.2
        ++ pressedButton.onButtonDown.1.onButtonDown.2 = []
      ∧ ¬ (pressedButton.onButtonDown.2
        ++ pressedButton.onButtonDown.1.onButtonDown.2).length = 1 := by
  constructor
  · rfl
  · decide

/-- Claim C9 (amended): from a released state, two consecutive press
events without an intervening release fire `onPress` exactly once and
leave `pressed = true`; from an already-pressed state they fire no
callback (pressed stays true); and a release event while already
released is a no-op that fires no callback. -/
theorem button_press_idempotent (s : ButtonController) :
    (s.isPressed = false →
      s.onButtonDown.2 ++ s.onButtonDown.1.onButtonDown.2
          = [ButtonEmit.press s.onPressCallback]
        ∧ s.onButtonDown.1.onButtonDown.1.isPressed = true)
      ∧ (s.isPressed = true →
      s.onButtonDown.2 ++ s.onButtonDown.1.onButtonDown.2 = []
        ∧ s.onButtonDown.1.onButtonDown.1.isPressed = true)
      ∧ (s.isPressed = false → s.onButtonUp = (s, [])) := by
  obtain ⟨p, r, pressed, op⟩ := s
  cases pressed <;>
    simp [ButtonController.onButtonDown, ButtonController.onButtonUp]

/-- Claim C9 witness: the amended statement evaluated on concrete
released and pressed button states. -/
theorem button_press_idempotent_witness :
    (releasedButton.onButtonDown.2
        ++ releasedButton.onButtonDown.1.onButtonDown.2
          = [ButtonEmit.press Callback.default]
      ∧ releasedButton.onButtonDown.1.onButtonDown.1.isPressed = true)
      ∧ releasedButton.onButtonUp = (releasedButton, []) := by
  refine ⟨(button_press_idempotent releasedButton).1 rfl,
    (button_press_idempotent releasedButton).2.2 rfl⟩

/-- Claim C10: the `pointerdown` listener is registered on the host
container (every state-changing listener of the button is), so a
pointer-down anywhere within the container reaches `onButtonDown`,
which from a released state sets `pressed = true` and fires the
installed `onPressCallback`. -/
theorem button_container_pointerdown :
    (⟨.container, .pointerdown, ButtonController.onButtonDown⟩ :
        Registration (ButtonController → ButtonController × List ButtonEmit))
        ∈ ButtonController.initRegistrations
      ∧ (∀ r ∈ ButtonController.initRegistrations,
          r.target = ListenTarget.container)
      ∧ ∀ s : ButtonController, s.isPressed = false →
          s.onButtonDown.1.isPressed = true
            ∧ s.onButtonDown.2 = [.press s.onPressCallback] := by
  refine ⟨List.Mem.tail _ (List.Mem.head _), ?_, ?_⟩
  · intro r hr
    simp only [ButtonController.initRegistrations, List.mem_cons,
      List.mem_singleton] at hr
    rcases hr with h | h | h
    · rw [h]
    · rw [h]
    · cases h
  · intro s hs
    simp [ButtonController.onButtonDown, hs]

/-- Claim C10 witness: the container-attached press path evaluated on a
concrete released button state. -/
theorem button_container_pointerdown_witness :
    releasedButton.onButtonDown.1.isPressed = true
      ∧ releasedButton.onButtonDown.2 = [.press Callback.default] :=
  button_container_pointerdown.2.2 releasedButton rfl

/-! ## RetrackableSlider (`RetractableSlider.ts`) -/

/-- The slider's `direction` union type (`"vertical" | "horizontal"`).
Named `SliderDirection` here because `Dpad.ts` declares a different
`direction` type, embedded below under its source name. -/
inductive SliderDirection where
  | vertical
  | horizontal
deriving DecidableEq, Repr

/-- Mutable state of a `RetrackableSlider` (`RetractableSlider.ts`).
Rendering-only fields (uid, colors, borders, sizes, logging flag) and the
purely visual fill element driven by `updateUI` are omitted. -/
structure RetrackableSlider where
  /-- `direction` of the slider -/
  direction : SliderDirection
  /-- installed `onSlideCallback` -/
  onSlideCallback : Callback
  /-- installed `onReleaseCallback` -/
  onReleaseCallback : Callback
  /-- `isPressed` flag -/
  isPressed : Bool
  /-- `valuePercent`: always an integer (0 initially, `Math.round` output after) -/
  valuePercent : ℤ
  /-- cached `baseRect` -/
  baseRect : Rect

/-- A callback invocation performed by a slider handler. -/
inductive SliderEmit where
  | slide (cb : Callback) (value : ℤ)
  | release (cb : Callback)

/-- Embedding of `RetrackableSlider.updateContainerRectangle`: caches the
live `getBoundingClientRect` result (`live`). -/
def RetrackableSlider.updateContainerRectangle (live : Rect)
    (s : RetrackableSlider) : RetrackableSlider :=
  { s with baseRect := live }

/-- The raw axis projection computed by `RetrackableSlider.onSliderMove`
against a rectangle: `100 - ((clientY - top) / height) * 100` for a
vertical slider, `((clientX - left) / width) * 100` for a horizontal
one. -/
noncomputable def sliderRawValue (d : SliderDirection) (r : Rect)
    (e : PointerEv) : ℝ :=
  match d with
  | .vertical => 100 - ((e.clientY - r.top) / r.height) * 100
  | .horizontal => ((e.clientX - r.left) / r.width) * 100

/-- The surfaced slider value: the raw axis projection clamped by
`Math.max(0, Math.min(100, value))` and rounded by `Math.round`
(round-half-up, Mathlib's `round`). -/
noncomputable def sliderValue (d : SliderDirection) (r : Rect)
    (e : PointerEv) : ℤ :=
  round (max (0 : ℝ) (min 100 (sliderRawValue d r e)))

/-- Embedding of `RetrackableSlider.onSliderUp` (also registered for
`pointercancel`): clears `isPressed`; then, only if `valuePercent ≠ 0`,
resets it to 0 and invokes the installed release callback (the
`if (this.onReleaseCallback)` guard always holds, the constructor
installs a default). -/
def RetrackableSlider.onSliderUp (s : RetrackableSlider) (_e : PointerEv) :
    RetrackableSlider × List SliderEmit :=
  let s1 := { s with isPressed := false }
  if s1.valuePercent ≠ 0 then
    ({ s1 with valuePercent := 0 }, [.release s1.onReleaseCallback])
  else (s1, [])

/-- Embedding of `RetrackableSlider.onSliderDown`: sets `isPressed`,
caches the live rectangle, and invokes the slide callback with the
current (possibly stale) value. -/
def RetrackableSlider.onSliderDown (live : Rect) (s : RetrackableSlider)
    (_e : PointerEv) : RetrackableSlider × List SliderEmit :=
  let s1 := { s with isPressed := true }
  let s2 := s1.updateContainerRectangle live
  (s2, [.slide s2.onSlideCallback s2.valuePercent])

/-- Embedding of `RetrackableSlider.onSliderMove`: early-returns when not
pressed; otherwise re-reads the live rectangle into the cache
(`updateContainerRectangle`), computes the clamped, rounded axis value
against that fresh rectangle and — only when it differs from the stored
`valuePercent` — stores it and invokes the slide callback. -/
noncomputable def RetrackableSlider.onSliderMove (live : Rect)
    (s : RetrackableSlider) (e : PointerEv) :
    RetrackableSlider × List SliderEmit :=
  if s.isPressed then
    let s1 := s.updateContainerRectangle live
    let value : ℤ := sliderValue s1.direction s1.baseRect e
    if s1.valuePercent ≠ value then
      ({ s1 with valuePercent := value }, [.slide s1.onSlideCallback value])
    else (s1, [])
  else (s, [])

/-- Claim C7: on every handled slider move the surfaced value is the
axis projection of the pointer against the freshly re-read rectangle —
`100 - ((clientY - top)/height)·100` vertically,
`((clientX - left)/width)·100` horizontally — clamped to [0, 100] and
rounded to the nearest integer, and the slide callback is invoked with
exactly that value if and only if it differs from the stored value. -/
theorem slider_move_value (live : Rect) (s : RetrackableSlider)
    (e : PointerEv) (hp : s.isPressed = true) :
    (s.onSliderMove live e).1.valuePercent = sliderValue s.direction live e
      ∧ (s.onSliderMove live e).2
        = (if s.valuePercent = sliderValue s.direction live e then []
           else [.slide s.onSlideCallback (sliderValue s.direction live e)]) := by
  unfold RetrackableSlider.onSliderMove
  rw [hp]
  simp only [RetrackableSlider.updateContainerRectangle, if_true]
  by_cases h : s.valuePercent = sliderValue s.direction live e
  · rw [if_neg (by simpa using h), if_pos h]
    exact ⟨h, rfl⟩
  · rw [if_pos (by simpa using h), if_neg h]
    exact ⟨rfl, rfl⟩

/-- A concrete pressed vertical slider over a 100×100 rectangle at the
origin, value 0. -/
noncomputable def demoSlider : RetrackableSlider :=
  { direction := .vertical
    onSlideCallback := .default
    onReleaseCallback := .default
    isPressed := true
    valuePercent := 0
    baseRect := ⟨0, 0, 100, 100⟩ }

/-- Evaluation helper: the value surfaced for a pointer at
`clientY = 25` over the 100-high rectangle at the origin is 75. -/
theorem sliderValue_demo :
    sliderValue SliderDirection.vertical ⟨0, 0, 100, 100⟩ ⟨1, 50, 25⟩ = 75 := by
  have hraw : sliderRawValue SliderDirection.vertical ⟨0, 0, 100, 100⟩ ⟨1, 50, 25⟩
      = (75 : ℝ) := by
    show (100 : ℝ) - (((25 : ℝ) - 0) / 100) * 100 = 75
    norm_num
  unfold sliderValue
  rw [hraw, min_eq_right (by norm_num), max_eq_right (by norm_num),
    show ((75 : ℝ)) = ((75 : ℤ) : ℝ) by norm_num, round_intCast]

/-- Claim C7 witness: a pointer at `clientY = 25` over the unit-origin
100-high rectangle yields value 75 and one slide invocation. -/
theorem slider_move_value_witness :
    (demoSlider.onSliderMove ⟨0, 0, 100, 100⟩ ⟨1, 50, 25⟩).1.valuePercent = 75
      ∧ (demoSlider.onSliderMove ⟨0, 0, 100, 100⟩ ⟨1, 50, 25⟩).2
        = [.slide Callback.default 75] := by
  have h := slider_move_value ⟨0, 0, 100, 100⟩ demoSlider ⟨1, 50, 25⟩ rfl
  have hv : sliderValue demoSlider.direction ⟨0, 0, 100, 100⟩ ⟨1, 50, 25⟩ = 75 :=
    sliderValue_demo
  refine ⟨by rw [h.1, hv], ?_⟩
  rw [h.2, hv]
  norm_num [demoSlider]

/-- Claim C8: releasing the slider always leaves `valuePercent = 0` and
`isPressed = false`; the release callback is invoked exactly once when
the value was nonzero, and not at all when it was already 0. -/
theorem slider_release_retracts (s : RetrackableSlider) (e : PointerEv) :
    (s.onSliderUp e).1.valuePercent = 0
      ∧ (s.onSliderUp e).1.isPressed = false
      ∧ (s.onSliderUp e).2
        = (if s.valuePercent = 0 then [] else [.release s.onReleaseCallback]) := by
  unfold RetrackableSlider.onSliderUp
  by_cases h : s.valuePercent = 0
  · rw [if_neg (by simpa using h)]
    simp [h]
  · rw [if_pos (by simpa using h)]
    simp [h]

/-- A concrete pressed vertical slider holding the nonzero value 40. -/
noncomputable def demoSlider40 : RetrackableSlider :=
  { demoSlider with valuePercent := 40 }

/-- Claim C8 witness: releasing from value 40 resets to 0 and fires the
release callback once; releasing from value 0 fires nothing. -/
theorem slider_release_retracts_witness :
    (demoSlider40.onSliderUp ⟨1, 0, 0⟩).1.valuePercent = 0
      ∧ (demoSlider40.onSliderUp ⟨1, 0, 0⟩).2 = [.release Callback.default]
      ∧ (demoSlider.onSliderUp ⟨1, 0, 0⟩).2 = [] := by
  have h1 := slider_release_retracts demoSlider40 ⟨1, 0, 0⟩
  have h2 := slider_release_retracts demoSlider ⟨1, 0, 0⟩
  refine ⟨h1.1, ?_, ?_⟩
  · rw [h1.2.2]
    norm_num [demoSlider40, demoSlider]
  · rw [h2.2.2]
    norm_num [demoSlider]

/-! ## JoysickController (`Joystick.ts`)

The class name and its handler names (`onJoysickUp`, `onJoysickMove`, …)
keep the source's spelling. -/

/-- Rotation of a vector by `ang` radians, as both `Joystick.ts` and
`Dpad.ts` compute it:
`(x·cos ang − y·sin ang, x·sin ang + y·cos ang)`. -/
noncomputable def rotateVec (ang x y : ℝ) : ℝ × ℝ :=
  (x * Real.cos ang - y * Real.sin ang, x * Real.sin ang + y * Real.cos ang)

/-- JavaScript `Number(v.toFixed(2))`: `v` rounded to 2 decimal places
(ties away from the smaller value, i.e. round-half-up, Mathlib's
`round`). -/
noncomputable def round2 (v : ℝ) : ℝ := (round (v * 100) : ℤ) / 100

/-- The joystick's clamp `Math.max(-1, Math.min(1, v))`. -/
noncomputable def clamp1 (v : ℝ) : ℝ := max (-1) (min 1 v)

/-- Mutable state of a `JoysickController` (`Joystick.ts`).
Rendering-only fields (uid, colors, top/left, logging flag) are omitted;
the thumb's visual position is kept as its translate offset in pixels,
and the base element's opacity as a rational. -/
structure JoysickController where
  /-- `rotate`: rotation in degrees -/
  rotate : ℝ
  /-- `radius` of the base, pixels -/
  radius : ℝ
  /-- installed `onInputCallback` -/
  onInputCallback : Callback
  /-- `isPressed` flag -/
  isPressed : Bool
  /-- cached `baseRect` -/
  baseRect : Rect
  /-- `thumbMaxDistance` -/
  thumbMaxDistance : ℝ
  /-- visual thumb offset from center (the translate part of
  `baseThumb.style.transform`); `(0, 0)` is centered -/
  thumbOffset : ℝ × ℝ
  /-- `base.style.opacity` -/
  baseOpacity : ℚ

/-- A callback invocation performed by a joystick handler. -/
inductive JoystickEmit where
  | input (cb : Callback) (x y : ℝ)

/-- Embedding of `JoysickController.updateContainerRectangle`: caches the
live rectangle and recomputes
`thumbMaxDistance = (radius - baseThumb.offsetWidth) / 1.5`; the thumb's
live `offsetWidth` is likewise a layout read, passed in as
`thumbWidth`. -/
noncomputable def JoysickController.updateContainerRectangle (live : Rect)
    (thumbWidth : ℝ) (s : JoysickController) : JoysickController :=
  { s with baseRect := live,
           thumbMaxDistance := (s.radius - thumbWidth) / 1.5 }

/-- The local `x` of `onJoysickMove`: pointer displacement from the
cached rectangle's center. -/
noncomputable def joyDispX (s : JoysickController) (e : PointerEv) : ℝ :=
  e.clientX - (s.baseRect.left + s.baseRect.width / 2)

/-- The local `y` of `onJoysickMove`. -/
noncomputable def joyDispY (s : JoysickController) (e : PointerEv) : ℝ :=
  e.clientY - (s.baseRect.top + s.baseRect.height / 2)

/-- The local `distance` of `onJoysickMove`:
`Math.hypot(x, y) = sqrt(x² + y²)`. -/
noncomputable def joyDistance (s : JoysickController) (e : PointerEv) : ℝ :=
  Real.sqrt (joyDispX s e ^ 2 + joyDispY s e ^ 2)

/-- The displacement after the vector clamp of `onJoysickMove`: when
`distance > thumbMaxDistance` both components are rescaled by
`thumbMaxDistance / distance`, otherwise kept. -/
noncomputable def joyClamped (s : JoysickController) (e : PointerEv) : ℝ × ℝ :=
  if joyDistance s e > s.thumbMaxDistance then
    (joyDispX s e * (s.thumbMaxDistance / joyDistance s e),
     joyDispY s e * (s.thumbMaxDistance / joyDistance s e))
  else (joyDispX s e, joyDispY s e)

/-- Embedding of `JoysickController.onJoysickMove`: early-returns when
not pressed; otherwise computes the displacement from the cached
rectangle's center, vector-clamps it to the disc of radius
`thumbMaxDistance`, applies the inverse rotation if `rotate` is nonzero,
moves the visual thumb there, and invokes the input callback with each
component divided by `thumbMaxDistance`, clamped to [-1, 1] and rounded
to 2 decimals.  No layout is read: only the cached `baseRect` is used. -/
noncomputable def JoysickController.onJoysickMove (s : JoysickController)
    (e : PointerEv) : JoysickController × List JoystickEmit :=
  if s.isPressed then
    let p := joyClamped s e
    let q := if s.rotate ≠ 0 then rotateVec (-s.rotate * Real.pi / 180) p.1 p.2
             else p
    let x := round2 (clamp1 (q.1 / s.thumbMaxDistance))
    let y := round2 (clamp1 (q.2 / s.thumbMaxDistance))
    ({ s with thumbOffset := q }, [.input s.onInputCallback x y])
  else (s, [])

/-- Embedding of `JoysickController.onJoysickUp` (registered for both
`pointerup` and `pointercancel`): clears `isPressed`, recenters the
visual thumb (`translate(-50%, -50%)` with no pixel offset) and restores
the base opacity.  It performs no callback invocation at all. -/
def JoysickController.onJoysickUp (s : JoysickController) (_e : PointerEv) :
    JoysickController × List JoystickEmit :=
  ({ s with isPressed := false, thumbOffset := ((0 : ℝ), (0 : ℝ)),
            baseOpacity := 7/10 }, [])

/-- Embedding of `JoysickController.onJoysickDown`: sets `isPressed`,
raises opacity, re-reads the live layout (`updateContainerRectangle`)
and forwards the event to `onJoysickMove` (press is an implicit first
move). -/
noncomputable def JoysickController.onJoysickDown (live : Rect)
    (thumbWidth : ℝ) (s : JoysickController) (e : PointerEv) :
    JoysickController × List JoystickEmit :=
  let s1 := { s with isPressed := true, baseOpacity := 1 }
  let s2 := s1.updateContainerRectangle live thumbWidth
  s2.onJoysickMove e

/-- The `pointerup`/`pointercancel` registrations performed by
`JoysickController.init`: both are bound to `onJoysickUp`. -/
def JoysickController.releaseRegistrations :
    List (DomEventKind ×
      (JoysickController → PointerEv → JoysickController × List JoystickEmit)) :=
  [ (.pointerup, JoysickController.onJoysickUp),
    (.pointercancel, JoysickController.onJoysickUp) ]

/-- Rounding to two decimals moves a value by at most 1/200. -/
theorem round2_sub_le (v : ℝ) : |round2 v - v| ≤ 1 / 200 := by
  have h : |v * 100 - round (v * 100)| ≤ 1 / 2 := abs_sub_round (v * 100)
  have h100 : round2 v - v = -((v * 100 - (round (v * 100) : ℤ)) / 100) := by
    unfold round2
    ring
  rw [h100, abs_neg, abs_div]
  rw [show |(100 : ℝ)| = 100 by norm_num]
  rw [div_le_div_iff₀ (by norm_num) (by norm_num)]
  nlinarith [h]

/-- The clamp to [-1, 1] is the identity on values already in range. -/
theorem clamp1_of_abs_le (v : ℝ) (h : |v| ≤ 1) : clamp1 v = v := by
  rcases abs_le.mp h with ⟨h1, h2⟩
  unfold clamp1
  rw [min_eq_right h2, max_eq_right h1]

/-- Claim C2: while pressed (unrotated, positive max distance), every
move invokes the input callback once with each component equal to the
vector-clamped displacement divided by `thumbMaxDistance`, clamped to
[-1, 1] and rounded to 2 decimals; and whenever the raw displacement's
hypot exceeds `thumbMaxDistance`, the emitted pair is the rounding of
the unit vector of the raw displacement — so each component is within
1/200 of a positive scalar multiple of the raw `(dx, dy)` (direction
preserved) and the emitted magnitude `hypot(x, y)` is at most 1.01. -/
theorem joystick_move_normalization (s : JoysickController) (e : PointerEv)
    (hp : s.isPressed = true) (hrot : s.rotate = 0)
    (hM : 0 < s.thumbMaxDistance) :
    (s.onJoysickMove e).2
        = [.input s.onInputCallback
            (round2 (clamp1 ((joyClamped s e).1 / s.thumbMaxDistance)))
            (round2 (clamp1 ((joyClamped s e).2 / s.thumbMaxDistance)))]
      ∧ (joyDistance s e > s.thumbMaxDistance →
          (s.onJoysickMove e).2
              = [.input s.onInputCallback
                  (round2 (joyDispX s e / joyDistance s e))
                  (round2 (joyDispY s e / joyDistance s e))]
            ∧ |round2 (joyDispX s e / joyDistance s e)
                - joyDispX s e / joyDistance s e| ≤ 1 / 200
            ∧ |round2 (joyDispY s e / joyDistance s e)
                - joyDispY s e / joyDistance s e| ≤ 1 / 200
            ∧ (∃ c : ℝ, 0 < c
                ∧ joyDispX s e / joyDistance s e = c * joyDispX s e
                ∧ joyDispY s e / joyDistance s e = c * joyDispY s e)
            ∧ Real.sqrt (round2 (joyDispX s e / joyDistance s e) ^ 2
                + round2 (joyDispY s e / joyDistance s e) ^ 2) ≤ 101 / 100) := by
  have hmain : (s.onJoysickMove e).2
      = [.input s.onInputCallback
          (round2 (clamp1 ((joyClamped s e).1 / s.thumbMaxDistance)))
          (round2 (clamp1 ((joyClamped s e).2 / s.thumbMaxDistance)))] := by
    unfold JoysickController.onJoysickMove
    rw [hp, hrot]
    simp
  refine ⟨hmain, fun hD => ?_⟩
  have hD0 : 0 < joyDistance s e := lt_trans hM hD
  have hM0 : s.thumbMaxDistance ≠ 0 := ne_of_gt hM
  have hD0' : joyDistance s e ≠ 0 := ne_of_gt hD0
  have hsq : joyDistance s e ^ 2 = joyDispX s e ^ 2 + joyDispY s e ^ 2 := by
    unfold joyDistance
    exact Real.sq_sqrt (by positivity)
  have habsX : |joyDispX s e| ≤ joyDistance s e := by
    rw [← Real.sqrt_sq_eq_abs]
    unfold joyDistance
    exact Real.sqrt_le_sqrt (by nlinarith [sq_nonneg (joyDispY s e)])
  have habsY : |joyDispY s e| ≤ joyDistance s e := by
    rw [← Real.sqrt_sq_eq_abs]
    unfold joyDistance
    exact Real.sqrt_le_sqrt (by nlinarith [sq_nonneg (joyDispX s e)])
  have hux : |joyDispX s e / joyDistance s e| ≤ 1 := by
    rw [abs_div, abs_of_pos hD0]
    exact (div_le_one hD0).mpr habsX
  have huy : |joyDispY s e / joyDistance s e| ≤ 1 := by
    rw [abs_div, abs_of_pos hD0]
    exact (div_le_one hD0).mpr habsY
  have hpair : joyClamped s e
      = (joyDispX s e * (s.thumbMaxDistance / joyDistance s e),
         joyDispY s e * (s.thumbMaxDistance / joyDistance s e)) := by
    unfold joyClamped
    rw [if_pos hD]
  have hcompX : (joyClamped s e).1 / s.thumbMaxDistance
      = joyDispX s e / joyDistance s e := by
    rw [hpair]
    field_simp
    ring
  have hcompY : (joyClamped s e).2 / s.thumbMaxDistance
      = joyDispY s e / joyDistance s e := by
    rw [hpair]
    field_simp
    ring
  have hemit : (s.onJoysickMove e).2
      = [.input s.onInputCallback
          (round2 (joyDispX s e / joyDistance s e))
          (round2 (joyDispY s e / joyDistance s e))] := by
    rw [hmain, hcompX, hcompY, clamp1_of_abs_le _ hux, clamp1_of_abs_le _ huy]
  refine ⟨hemit, round2_sub_le _, round2_sub_le _, ⟨1 / joyDistance s e,
    by positivity, by rw [one_div, inv_mul_eq_div], by rw [one_div, inv_mul_eq_div]⟩, ?_⟩
  have hunit : (joyDispX s e / joyDistance s e) ^ 2
      + (joyDispY s e / joyDistance s e) ^ 2 = 1 := by
    field_simp
    rw [← hsq]
  have hex := abs_le.mp (round2_sub_le (joyDispX s e / joyDistance s e))
  have hey := abs_le.mp (round2_sub_le (joyDispY s e / joyDistance s e))
  have hax := abs_le.mp hux
  have hay := abs_le.mp huy
  have hbound : round2 (joyDispX s e / joyDistance s e) ^ 2
      + round2 (joyDispY s e / joyDistance s e) ^ 2 ≤ (101 / 100) ^ 2 := by
    nlinarith [hunit, hex.1, hex.2, hey.1, hey.2, hax.1, hax.2, hay.1, hay.2]
  calc Real.sqrt (round2 (joyDispX s e / joyDistance s e) ^ 2
        + round2 (joyDispY s e / joyDistance s e) ^ 2)
      ≤ Real.sqrt ((101 / 100) ^ 2) := Real.sqrt_le_sqrt hbound
    _ = 101 / 100 := Real.sqrt_sq (by norm_num)

/-- A concrete pressed joystick: unrotated, centered rectangle at the
origin, `thumbMaxDistance = 50`. -/
noncomputable def demoJoystick : JoysickController :=
  { rotate := 0
    radius := 100
    onInputCallback := .default
    isPressed := true
    baseRect := ⟨0, 0, 0, 0⟩
    thumbMaxDistance := 50
    thumbOffset := (0, 0)
    baseOpacity := 1 }

/-- Evaluation helper: `round2` is the identity on 1 and on 0. -/
theorem round2_one_zero : round2 (1 : ℝ) = 1 ∧ round2 (0 : ℝ) = 0 := by
  constructor
  · unfold round2
    rw [show ((1 : ℝ) * 100) = ((100 : ℤ) : ℝ) by norm_num, round_intCast]
    norm_num
  · unfold round2
    rw [show ((0 : ℝ) * 100) = ((0 : ℤ) : ℝ) by norm_num, round_intCast]
    norm_num

/-- Claim C2 witness: the spec's end-to-end example — a press far to the
right, `(dx, dy) = (200, 0)` with `thumbMaxDistance = 50` — emits
exactly `(1.0, 0.0)`. -/
theorem joystick_move_normalization_witness :
    (demoJoystick.onJoysickMove ⟨1, 200, 0⟩).2
      = [.input Callback.default (1 : ℝ) (0 : ℝ)] := by
  have hdX : joyDispX demoJoystick ⟨1, 200, 0⟩ = 200 := by
    simp [joyDispX, demoJoystick]
  have hdY : joyDispY demoJoystick ⟨1, 200, 0⟩ = 0 := by
    simp [joyDispY, demoJoystick]
  have hdist : joyDistance demoJoystick ⟨1, 200, 0⟩ = 200 := by
    unfold joyDistance
    rw [hdX, hdY,
      show ((200 : ℝ) ^ 2 + (0 : ℝ) ^ 2) = 200 ^ 2 by norm_num,
      Real.sqrt_sq (by norm_num)]
  have h := joystick_move_normalization demoJoystick ⟨1, 200, 0⟩ rfl rfl
    (by show (0 : ℝ) < 50; norm_num)
  have hD : joyDistance demoJoystick ⟨1, 200, 0⟩ > demoJoystick.thumbMaxDistance := by
    rw [hdist]
    show (200 : ℝ) > 50
    norm_num
  have h2 := (h.2 hD).1
  rw [hdX, hdY, hdist] at h2
  rw [h2, show ((200 : ℝ) / 200) = 1 by norm_num,
    show ((0 : ℝ) / 200) = 0 by norm_num,
    round2_one_zero.1, round2_one_zero.2]
  rfl

/-- Claim C5: both release registrations of the joystick (`pointerup`
and `pointercancel`) run `onJoysickUp`, which performs no callback
invocation at all (in particular no synthetic `(0, 0)` input), clears
`isPressed` and recenters the visual thumb. -/
theorem joystick_release_silent :
    (∀ r ∈ JoysickController.releaseRegistrations,
        ∀ (s : JoysickController) (e : PointerEv),
          (r.2 s e).2 = []
            ∧ (r.2 s e).1.isPressed = false
            ∧ (r.2 s e).1.thumbOffset = ((0 : ℝ), (0 : ℝ)))
      ∧ JoysickController.releaseRegistrations.map Prod.fst
          = [DomEventKind.pointerup, DomEventKind.pointercancel] := by
  constructor
  · intro r hr s e
    have h : r.2 = JoysickController.onJoysickUp := by
      rcases List.mem_cons.mp hr with h | h
      · rw [h]
      · rcases List.mem_cons.mp h with h | h
        · rw [h]
        · cases h
    rw [h]
    exact ⟨rfl, rfl, rfl⟩
  · rfl

/-- Claim C5 witness: the `pointerup` registration applied to a concrete
pressed joystick emits nothing, clears the flag and recenters the
thumb. -/
theorem joystick_release_silent_witness :
    (JoysickController.onJoysickUp demoJoystick ⟨1, 30, 40⟩).2 = []
      ∧ (JoysickController.onJoysickUp demoJoystick ⟨1, 30, 40⟩).1.isPressed = false
      ∧ (JoysickController.onJoysickUp demoJoystick ⟨1, 30, 40⟩).1.thumbOffset
        = ((0 : ℝ), (0 : ℝ)) :=
  joystick_release_silent.1 (DomEventKind.pointerup, JoysickController.onJoysickUp)
    (List.Mem.head _) demoJoystick ⟨1, 30, 40⟩

/-! ## DpadController (`Dpad.ts`) -/

/-- The D-pad's `direction` union type: the 9 direction symbols
(`"up-right"` is spelled `upRight`, and so on). -/
inductive direction where
  | center
  | up
  | down
  | left
  | right
  | upRight
  | downRight
  | upLeft
  | downLeft
deriving DecidableEq, Repr

/-- The configuration fields of `DpadOptions` that feed the modelled
state (rendering-only fields — uid, container, top/left, radius, colors,
verboseLogging — are omitted).  `none` models an absent (`undefined`)
option; a present callback option is a user-supplied function,
identified by a natural number. -/
structure DpadOptions where
  centerRadiusThreshold : Option ℝ
  onPressCallback : Option ℕ
  onReleaseCallback : Option ℕ
  keyRepeat : Option Bool
  rotate : Option ℝ

/-- Mutable state of a `DpadController` (`Dpad.ts`).  Rendering-only
fields (uid, colors, SVG paths, logging flag) are omitted. -/
structure DpadController where
  /-- `centerThreshold` (0 to 1) -/
  centerThreshold : ℝ
  /-- installed `onPressCallback` -/
  onPressCallback : Callback
  /-- installed `onReleaseCallback` -/
  onReleaseCallback : Callback
  /-- `isPressed` flag -/
  isPressed : Bool
  /-- `keyRepeat` flag (configuration hook; no repeat scheduling exists) -/
  keyRepeat : Bool
  /-- `rotate`: rotation in degrees -/
  rotate : ℝ
  /-- `currentDirection` -/
  currentDirection : direction
  /-- `pointerId` of the owning pointer (-1 when none) -/
  pointerId : ℤ
  /-- cached `baseRect` -/
  baseRect : Rect
  /-- `inputRegisterDistance`: the dead-zone radius -/
  inputRegisterDistance : ℝ

/-- Embedding of the `DpadController` constructor (the fields the model
keeps).  Defaulting follows the source: `centerThreshold` uses an
explicit `== undefined` check (so a supplied 0 is kept);
`onPressCallback` falls back to the default logger via `||`; and —
verbatim from the source — `onReleaseCallback` is assigned the default
logging closure unconditionally: `options.onReleaseCallback` is never
consulted.  `baseRect` starts `undefined` in the source and is cached on
press/resize; the model uses a zero rectangle as the initial
placeholder. -/
noncomputable def DpadController.new (o : DpadOptions) : DpadController :=
  { centerThreshold :=
      match o.centerRadiusThreshold with
      | none => 0.25
      | some t => t
    onPressCallback :=
      match o.onPressCallback with
      | some f => .user f
      | none => .default
    onReleaseCallback := .default
    isPressed := false
    keyRepeat := o.keyRepeat.getD false
    rotate := o.rotate.getD 0
    currentDirection := .center
    pointerId := -1
    baseRect := ⟨0, 0, 0, 0⟩
    inputRegisterDistance := 0 }

/-- A callback invocation performed by a D-pad handler. -/
inductive DpadEmit where
  | press (cb : Callback) (d : direction)
  | release (cb : Callback) (d : direction)
deriving DecidableEq, Repr

/-- JavaScript `Math.atan2(y, x)`: the angle of the point `(x, y)` in
`(-π, π]` (signed zeros aside, which ℝ does not have). -/
noncomputable def atan2 (y x : ℝ) : ℝ :=
  if 0 < x then Real.arctan (y / x)
  else if x < 0 ∧ 0 ≤ y then Real.arctan (y / x) + Real.pi
  else if x < 0 ∧ y < 0 then Real.arctan (y / x) - Real.pi
  else if x = 0 ∧ 0 < y then Real.pi / 2
  else if x = 0 ∧ y < 0 then -(Real.pi / 2)
  else 0

/-- On the right half-plane `atan2` is the arctangent of the slope. -/
theorem atan2_of_pos (y x : ℝ) (hx : 0 < x) :
    atan2 y x = Real.arctan (y / x) := by
  unfold atan2
  rw [if_pos hx]

/-- Embedding of the sector chain of `DpadController.onDpadMove`: the
cascade of `angle` tests mapping degrees to one of the 8 directions
(`direction` starts out `center`; the chain is total on the atan2 range
`(-180, 180]`, so the final `center` is unreachable there). -/
noncomputable def dpadDirectionFromAngle (angle : ℝ) : direction :=
  if angle > -22.5 ∧ angle ≤ 22.5 then .right
  else if angle > 22.5 ∧ angle ≤ 67.5 then .upRight
  else if angle > 67.5 ∧ angle ≤ 112.5 then .up
  else if angle > 112.5 ∧ angle ≤ 157.5 then .upLeft
  else if angle > 157.5 ∨ angle ≤ -157.5 then .left
  else if angle > -157.5 ∧ angle ≤ -112.5 then .downLeft
  else if angle > -112.5 ∧ angle ≤ -67.5 then .down
  else if angle > -67.5 ∧ angle ≤ -22.5 then .downRight
  else .center

/-- Embedding of `DpadController.updateContainerRectangle`: caches the
live rectangle and recomputes the dead-zone radius
`inputRegisterDistance = (min(width, height) / 2) * centerThreshold`. -/
noncomputable def DpadController.updateContainerRectangle (live : Rect)
    (s : DpadController) : DpadController :=
  { s with baseRect := live,
           inputRegisterDistance :=
             min live.width live.height / 2 * s.centerThreshold }

/-- The local `x` of `onDpadMove`: pointer displacement from the cached
rectangle's center. -/
noncomputable def dpadDispX (s : DpadController) (e : PointerEv) : ℝ :=
  e.clientX - (s.baseRect.left + s.baseRect.width / 2)

/-- The local `y` of `onDpadMove`. -/
noncomputable def dpadDispY (s : DpadController) (e : PointerEv) : ℝ :=
  e.clientY - (s.baseRect.top + s.baseRect.height / 2)

/-- The displacement after the optional inverse-rotation step of
`onDpadMove` (applied only when `rotate ≠ 0`). -/
noncomputable def dpadRotated (s : DpadController) (e : PointerEv) : ℝ × ℝ :=
  if s.rotate ≠ 0 then
    rotateVec (-s.rotate * Real.pi / 180) (dpadDispX s e) (dpadDispY s e)
  else (dpadDispX s e, dpadDispY s e)

/-- The local `angle` of `onDpadMove`:
`Math.atan2(-y, x) * 180 / Math.PI`, in degrees. -/
noncomputable def dpadAngle (s : DpadController) (e : PointerEv) : ℝ :=
  atan2 (-(dpadRotated s e).2) (dpadRotated s e).1 * 180 / Real.pi

/-- The local `centerDistance` of `onDpadMove`: `sqrt(x·x + y·y)`. -/
noncomputable def dpadCenterDistance (s : DpadController) (e : PointerEv) : ℝ :=
  Real.sqrt ((dpadRotated s e).1 * (dpadRotated s e).1
    + (dpadRotated s e).2 * (dpadRotated s e).2)

/-- The direction computed by `onDpadMove`: `center` inside the dead
zone, the sector of the angle beyond it. -/
noncomputable def dpadComputedDirection (s : DpadController) (e : PointerEv) :
    direction :=
  if dpadCenterDistance s e > s.inputRegisterDistance then
    dpadDirectionFromAngle (dpadAngle s e)
  else .center

/-- Embedding of `DpadController.onDpadMove`: early-returns when not
pressed; otherwise computes the direction from the cached rectangle (no
layout read), and — only on a direction transition — stores it and
invokes the installed press callback with the new direction. -/
noncomputable def DpadController.onDpadMove (s : DpadController)
    (e : PointerEv) : DpadController × List DpadEmit :=
  if s.isPressed then
    let dir := dpadComputedDirection s e
    if s.currentDirection ≠ dir then
      ({ s with currentDirection := dir }, [.press s.onPressCallback dir])
    else (s, [])
  else (s, [])

/-- Embedding of `DpadController.onDpadUp` (pointer-event branch; the
touch-event monkey patch is not modelled): when the event's pointer owns
the interaction, clears `isPressed` and the pointer id (`resetDpad` is
visual-only); then, only if the direction was not already `center`,
resets it and invokes the installed release callback with `center`. -/
def DpadController.onDpadUp (s : DpadController) (e : PointerEv) :
    DpadController × List DpadEmit :=
  let s1 := if e.pointerId = s.pointerId
            then { s with isPressed := false, pointerId := -1 }
            else s
  if s1.currentDirection ≠ .center then
    ({ s1 with currentDirection := .center },
     [.release s1.onReleaseCallback .center])
  else (s1, [])

/-- Embedding of `DpadController.onDpadDown` (pointer-event branch):
sets `isPressed` and the owning pointer, re-reads the live layout
(`updateContainerRectangle`) and forwards the event to `onDpadMove`. -/
noncomputable def DpadController.onDpadDown (live : Rect)
    (s : DpadController) (e : PointerEv) : DpadController × List DpadEmit :=
  let s1 := { s with isPressed := true, pointerId := e.pointerId }
  let s2 := s1.updateContainerRectangle live
  s2.onDpadMove e

/-- While pressed, a move always leaves `currentDirection` equal to the
direction just computed (stored on transition, already equal
otherwise). -/
theorem onDpadMove_currentDirection (s : DpadController) (e : PointerEv)
    (hp : s.isPressed = true) :
    (s.onDpadMove e).1.currentDirection = dpadComputedDirection s e := by
  by_cases h : s.currentDirection = dpadComputedDirection s e
  · simp [DpadController.onDpadMove, hp, h]
  · simp [DpadController.onDpadMove, hp, h]

/-- Sector chain, right sector: angles in `(-22.5, 22.5]` map to
`right`. -/
theorem dpadDirectionFromAngle_right (a : ℝ) (h1 : a > -22.5)
    (h2 : a ≤ 22.5) : dpadDirectionFromAngle a = direction.right := by
  unfold dpadDirectionFromAngle
  rw [if_pos ⟨h1, h2⟩]

/-- Sector chain, up-right sector: angles in `(22.5, 67.5]` map to
`upRight`. -/
theorem dpadDirectionFromAngle_upRight (a : ℝ) (h1 : a > 22.5)
    (h2 : a ≤ 67.5) : dpadDirectionFromAngle a = direction.upRight := by
  unfold dpadDirectionFromAngle
  rw [if_neg (fun hc => absurd h1 (not_lt.mpr hc.2)), if_pos ⟨h1, h2⟩]

/-- The direction computed for a displacement of length `r` at
mathematical angle `θ` degrees (screen coordinates: `clientY` grows
downward, so the screen displacement is `(r·cos θ, -r·sin θ)`), for `θ`
in the right half-plane and `r` beyond the dead zone, is the sector of
`θ`. -/
theorem dpadComputedDirection_at_angle (s : DpadController) (e : PointerEv)
    (r θ : ℝ) (hrot : s.rotate = 0) (hr : s.inputRegisterDistance < r)
    (hr0 : 0 < r) (hθ1 : -90 < θ) (hθ2 : θ < 90)
    (heX : e.clientX = s.baseRect.left + s.baseRect.width / 2
      + r * Real.cos (θ * Real.pi / 180))
    (heY : e.clientY = s.baseRect.top + s.baseRect.height / 2
      - r * Real.sin (θ * Real.pi / 180)) :
    dpadComputedDirection s e = dpadDirectionFromAngle θ := by
  have hpi : (0 : ℝ) < Real.pi / 180 := by positivity
  have hθr1 : -(Real.pi / 2) < θ * Real.pi / 180 := by
    have := mul_lt_mul_of_pos_right hθ1 hpi
    calc -(Real.pi / 2) = -90 * (Real.pi / 180) := by ring
      _ < θ * (Real.pi / 180) := this
      _ = θ * Real.pi / 180 := by ring
  have hθr2 : θ * Real.pi / 180 < Real.pi / 2 := by
    have := mul_lt_mul_of_pos_right hθ2 hpi
    calc θ * Real.pi / 180 = θ * (Real.pi / 180) := by ring
      _ < 90 * (Real.pi / 180) := this
      _ = Real.pi / 2 := by ring
  have hcos : 0 < Real.cos (θ * Real.pi / 180) :=
    Real.cos_pos_of_mem_Ioo ⟨hθr1, hθr2⟩
  have hdX : dpadDispX s e = r * Real.cos (θ * Real.pi / 180) := by
    unfold dpadDispX
    rw [heX]
    ring
  have hdY : dpadDispY s e = -(r * Real.sin (θ * Real.pi / 180)) := by
    unfold dpadDispY
    rw [heY]
    ring
  have hrotated : dpadRotated s e
      = (r * Real.cos (θ * Real.pi / 180),
         -(r * Real.sin (θ * Real.pi / 180))) := by
    unfold dpadRotated
    rw [if_neg (by rw [hrot]; exact fun hc => hc rfl), hdX, hdY]
  have hangle : dpadAngle s e = θ := by
    unfold dpadAngle
    rw [hrotated]
    simp only [neg_neg]
    rw [atan2_of_pos _ _ (mul_pos hr0 hcos),
      mul_div_mul_left _ _ (ne_of_gt hr0),
      ← Real.tan_eq_sin_div_cos, Real.arctan_tan hθr1 hθr2]
    field_simp
  have hdist : dpadCenterDistance s e = r := by
    unfold dpadCenterDistance
    rw [hrotated]
    simp only
    rw [show r * Real.cos (θ * Real.pi / 180) * (r * Real.cos (θ * Real.pi / 180))
          + -(r * Real.sin (θ * Real.pi / 180)) * -(r * Real.sin (θ * Real.pi / 180))
        = r ^ 2 * (Real.sin (θ * Real.pi / 180) ^ 2
          + Real.cos (θ * Real.pi / 180) ^ 2) by ring,
      Real.sin_sq_add_cos_sq, mul_one, Real.sqrt_sq hr0.le]
  unfold dpadComputedDirection
  rw [hdist, hangle, if_pos hr]

/-- Claim C6: while pressed, any displacement whose distance from the
cached rectangle's center is at most the dead-zone radius computes
direction `center`, whatever its angle (rotation preserves the
distance); and the dead-zone radius set on press (or resize) is
`min(width, height)/2 · centerThreshold`. -/
theorem dpad_dead_zone_center (live : Rect) (s : DpadController)
    (e : PointerEv) (hp : s.isPressed = true)
    (hdist : Real.sqrt (dpadDispX s e ^ 2 + dpadDispY s e ^ 2)
      ≤ s.inputRegisterDistance) :
    (s.onDpadMove e).1.currentDirection = direction.center
      ∧ (s.updateContainerRectangle live).inputRegisterDistance
        = min live.width live.height / 2 * s.centerThreshold := by
  refine ⟨?_, rfl⟩
  rw [onDpadMove_currentDirection s e hp]
  have hinv : (dpadRotated s e).1 * (dpadRotated s e).1
      + (dpadRotated s e).2 * (dpadRotated s e).2
      = dpadDispX s e ^ 2 + dpadDispY s e ^ 2 := by
    unfold dpadRotated
    by_cases h : s.rotate ≠ 0
    · rw [if_pos h]
      unfold rotateVec
      simp only
      linear_combination (dpadDispX s e ^ 2 + dpadDispY s e ^ 2)
        * Real.sin_sq_add_cos_sq (-s.rotate * Real.pi / 180)
    · rw [if_neg h]
      ring
  have hc : dpadCenterDistance s e ≤ s.inputRegisterDistance := by
    unfold dpadCenterDistance
    rw [hinv]
    exact hdist
  unfold dpadComputedDirection
  rw [if_neg (not_lt.mpr hc)]

/-- A concrete pressed D-pad: dead-zone radius 10, unrotated, centered
rectangle at the origin, direction `center`. -/
noncomputable def demoDpad : DpadController :=
  { centerThreshold := 0.25
    onPressCallback := .default
    onReleaseCallback := .default
    isPressed := true
    keyRepeat := false
    rotate := 0
    currentDirection := .center
    pointerId := 1
    baseRect := ⟨0, 0, 0, 0⟩
    inputRegisterDistance := 10 }

/-- Claim C6 witness: the displacement (3, 4) — distance 5, inside the
dead zone of radius 10 — computes `center`; and a 100×60 rectangle with
threshold 0.25 yields dead-zone radius 7.5. -/
theorem dpad_dead_zone_center_witness :
    (demoDpad.onDpadMove ⟨1, 3, 4⟩).1.currentDirection = direction.center
      ∧ (demoDpad.updateContainerRectangle ⟨0, 0, 100, 60⟩).inputRegisterDistance
        = (15 / 2 : ℝ) := by
  have hdx : dpadDispX demoDpad ⟨1, 3, 4⟩ = 3 := by
    norm_num [dpadDispX, demoDpad]
  have hdy : dpadDispY demoDpad ⟨1, 3, 4⟩ = 4 := by
    norm_num [dpadDispY, demoDpad]
  have hs : Real.sqrt (dpadDispX demoDpad ⟨1, 3, 4⟩ ^ 2
      + dpadDispY demoDpad ⟨1, 3, 4⟩ ^ 2) = 5 := by
    rw [hdx, hdy, show (3 : ℝ) ^ 2 + (4 : ℝ) ^ 2 = 5 ^ 2 by norm_num,
      Real.sqrt_sq (by norm_num)]
  have h := dpad_dead_zone_center ⟨0, 0, 100, 60⟩ demoDpad ⟨1, 3, 4⟩ rfl
    (by rw [hs]; norm_num [demoDpad])
  refine ⟨h.1, ?_⟩
  rw [h.2]
  show min (100 : ℝ) 60 / 2 * (0.25 : ℝ) = 15 / 2
  rw [min_eq_right (by norm_num : (60 : ℝ) ≤ 100)]
  norm_num

/-- Claim C3 (amended): with the upper-inclusive sectors the code
implements, a displacement beyond the dead zone at exactly 22.5° maps to
`right` — the boundary angle belongs to the right sector
`(-22.5, 22.5]`, not to `up-right` — as does any angle in
`(-22.5, 22.5]` (in particular 22.5° − ε); `up-right` is produced
exactly by angles in `(22.5, 67.5]`, i.e. from 22.5° + ε on. -/
theorem dpad_sector_boundary (s : DpadController) (e : PointerEv) (r θ : ℝ)
    (hp : s.isPressed = true) (hrot : s.rotate = 0)
    (hr : s.inputRegisterDistance < r) (hr0 : 0 < r)
    (heX : e.clientX = s.baseRect.left + s.baseRect.width / 2
      + r * Real.cos (θ * Real.pi / 180))
    (heY : e.clientY = s.baseRect.top + s.baseRect.height / 2
      - r * Real.sin (θ * Real.pi / 180)) :
    ((θ > -22.5 ∧ θ ≤ 22.5) →
      (s.onDpadMove e).1.currentDirection = direction.right)
      ∧ ((θ > 22.5 ∧ θ ≤ 67.5) →
      (s.onDpadMove e).1.currentDirection = direction.upRight) := by
  constructor
  · rintro ⟨h1, h2⟩
    rw [onDpadMove_currentDirection s e hp,
      dpadComputedDirection_at_angle s e r θ hrot hr hr0
        (by linarith) (by linarith) heX heY,
      dpadDirectionFromAngle_right θ h1 h2]
  · rintro ⟨h1, h2⟩
    rw [onDpadMove_currentDirection s e hp,
      dpadComputedDirection_at_angle s e r θ hrot hr hr0
        (by linarith) (by linarith) heX heY,
      dpadDirectionFromAngle_upRight θ h1 h2]

/-- A pointer event at distance 100 from the origin at exactly 22.5°
(screen coordinates). -/
noncomputable def ev225 : PointerEv :=
  ⟨1, 100 * Real.cos (22.5 * Real.pi / 180),
      -(100 * Real.sin (22.5 * Real.pi / 180))⟩

/-- Claim C3 counterexample: a displacement of length 100 (dead zone 10)
at exactly 22.5° computes direction `right`, not the `up-right` the
claim asserts. -/
theorem dpad_sector_boundary_cex :
    (demoDpad.onDpadMove ev225).1.currentDirection = direction.right
      ∧ ¬ (demoDpad.onDpadMove ev225).1.currentDirection = direction.upRight := by
  have heX : ev225.clientX = demoDpad.baseRect.left + demoDpad.baseRect.width / 2
      + 100 * Real.cos (22.5 * Real.pi / 180) := by
    show 100 * Real.cos (22.5 * Real.pi / 180)
      = 0 + 0 / 2 + 100 * Real.cos (22.5 * Real.pi / 180)
    ring
  have heY : ev225.clientY = demoDpad.baseRect.top + demoDpad.baseRect.height / 2
      - 100 * Real.sin (22.5 * Real.pi / 180) := by
    show -(100 * Real.sin (22.5 * Real.pi / 180))
      = 0 + 0 / 2 - 100 * Real.sin (22.5 * Real.pi / 180)
    ring
  have h := dpadComputedDirection_at_angle demoDpad ev225 100 22.5 rfl
    (by norm_num [demoDpad]) (by norm_num) (by norm_num) (by norm_num) heX heY
  rw [onDpadMove_currentDirection demoDpad ev225 rfl, h,
    dpadDirectionFromAngle_right 22.5 (by norm_num) (by norm_num)]
  exact ⟨rfl, by decide⟩

/-- A pointer event at distance 100 from the origin at 45°. -/
noncomputable def ev45 : PointerEv :=
  ⟨1, 100 * Real.cos (45 * Real.pi / 180),
      -(100 * Real.sin (45 * Real.pi / 180))⟩

/-- Claim C3 witness: the amended sector map evaluated concretely — a
displacement at 45° (inside `(22.5, 67.5]`) yields `up-right`. -/
theorem dpad_sector_boundary_witness :
    (demoDpad.onDpadMove ev45).1.currentDirection = direction.upRight := by
  have heX : ev45.clientX = demoDpad.baseRect.left + demoDpad.baseRect.width / 2
      + 100 * Real.cos (45 * Real.pi / 180) := by
    show 100 * Real.cos (45 * Real.pi / 180)
      = 0 + 0 / 2 + 100 * Real.cos (45 * Real.pi / 180)
    ring
  have heY : ev45.clientY = demoDpad.baseRect.top + demoDpad.baseRect.height / 2
      - 100 * Real.sin (45 * Real.pi / 180) := by
    show -(100 * Real.sin (45 * Real.pi / 180))
      = 0 + 0 / 2 - 100 * Real.sin (45 * Real.pi / 180)
    ring
  exact (dpad_sector_boundary demoDpad ev45 100 45 rfl rfl
    (by norm_num [demoDpad]) (by norm_num) heX heY).2 ⟨by norm_num, by norm_num⟩

/-- Claim C1 (code bug in the source): whatever `onReleaseCallback` the
options carry, the constructor installs the built-in default logging
closure — the user-supplied function is discarded — and the callback a
release (from a non-center direction) invokes with `center` is that
default, never the user's function. -/
theorem dpad_release_callback_dropped (o : DpadOptions) (f : ℕ)
    (hf : o.onReleaseCallback = some f) :
    (DpadController.new o).onReleaseCallback = Callback.default
      ∧ Callback.default ≠ Callback.user f
      ∧ ∀ (s : DpadController) (e : PointerEv),
          s.onReleaseCallback = (DpadController.new o).onReleaseCallback →
          s.currentDirection ≠ direction.center →
          (s.onDpadUp e).2 = [.release Callback.default direction.center] := by
  refine ⟨rfl, by simp, ?_⟩
  intro s e hcb hdir
  have hcb2 : s.onReleaseCallback = Callback.default := hcb
  by_cases hpid : e.pointerId = s.pointerId
  · simp [DpadController.onDpadUp, hpid, hdir, hcb2]
  · simp [DpadController.onDpadUp, hpid, hdir, hcb2]

/-- Options that do supply a user `onReleaseCallback` (function 7). -/
def demoDpadOptions : DpadOptions :=
  { centerRadiusThreshold := none
    onPressCallback := none
    onReleaseCallback := some 7
    keyRepeat := none
    rotate := none }

/-- The demo D-pad currently held at direction `right`. -/
noncomputable def demoDpadRight : DpadController :=
  { demoDpad with currentDirection := .right }

/-- Claim C1 witness: with options supplying user function 7, the
constructed controller's release callback is the default, and releasing
from direction `right` invokes the default with `center`. -/
theorem dpad_release_callback_dropped_witness :
    (DpadController.new demoDpadOptions).onReleaseCallback = Callback.default
      ∧ (demoDpadRight.onDpadUp ⟨1, 0, 0⟩).2
        = [.release Callback.default direction.center] := by
  have h := dpad_release_callback_dropped demoDpadOptions 7 rfl
  exact ⟨h.1, h.2.2 demoDpadRight ⟨1, 0, 0⟩ rfl (by decide)⟩

/-! ## Mid-drag layout reads (cross-control) -/

/-- A handled slider move always leaves the cache equal to the live
rectangle it re-read. -/
theorem onSliderMove_baseRect (live : Rect) (sl : RetrackableSlider)
    (e : PointerEv) (hp : sl.isPressed = true) :
    (sl.onSliderMove live e).1.baseRect = live := by
  by_cases h : sl.valuePercent = sliderValue sl.direction live e
  · simp [RetrackableSlider.onSliderMove, RetrackableSlider.updateContainerRectangle,
      hp, h]
  · simp [RetrackableSlider.onSliderMove, RetrackableSlider.updateContainerRectangle,
      hp, h]

/-- Claim C4 (amended): the joystick's and the d-pad's move handlers
never re-read the layout mid-drag — they use only the cached rectangle
and leave the cache unchanged — but the slider's `onSliderMove` re-reads
the live rectangle into the cache on every handled move (as section 4.4
step 2 of the spec itself states). -/
theorem move_handlers_rect_cache (s : JoysickController) (d : DpadController)
    (sl : RetrackableSlider) (live : Rect) (e : PointerEv) :
    (s.onJoysickMove e).1.baseRect = s.baseRect
      ∧ (d.onDpadMove e).1.baseRect = d.baseRect
      ∧ (sl.isPressed = true → (sl.onSliderMove live e).1.baseRect = live) := by
  refine ⟨?_, ?_, fun hp => onSliderMove_baseRect live sl e hp⟩
  · by_cases h : s.isPressed
    · simp [JoysickController.onJoysickMove, h]
    · simp [JoysickController.onJoysickMove, h]
  · by_cases h : d.isPressed
    · by_cases h2 : d.currentDirection = dpadComputedDirection d e
      · simp [DpadController.onDpadMove, h, h2]
      · simp [DpadController.onDpadMove, h, h2]
    · simp [DpadController.onDpadMove, h]

/-- Claim C4 counterexample: the slider's move handler does recompute
the cached rectangle mid-drag: starting from a cache at left 0 and a
live rectangle at left 5, one handled move leaves the cached field
changed. -/
theorem move_never_recomputes_rect_cex :
    ¬ ((demoSlider.onSliderMove ⟨5, 0, 100, 100⟩ ⟨1, 50, 25⟩).1.baseRect
        = demoSlider.baseRect) := by
  rw [onSliderMove_baseRect ⟨5, 0, 100, 100⟩ demoSlider ⟨1, 50, 25⟩ rfl]
  intro h
  have h5 : (5 : ℝ) = 0 := congrArg Rect.left h
  norm_num at h5

/-- Claim C4 witness: the cache behavior of all three move handlers
evaluated on concrete pressed states. -/
theorem move_handlers_rect_cache_witness :
    (demoJoystick.onJoysickMove ⟨1, 50, 25⟩).1.baseRect = demoJoystick.baseRect
      ∧ (demoDpad.onDpadMove ⟨1, 50, 25⟩).1.baseRect = demoDpad.baseRect
      ∧ (demoSlider.onSliderMove ⟨0, 0, 100, 100⟩ ⟨1, 50, 25⟩).1.baseRect
        = (⟨0, 0, 100, 100⟩ : Rect) := by
  have h := move_handlers_rect_cache demoJoystick demoDpad demoSlider
    ⟨0, 0, 100, 100⟩ ⟨1, 50, 25⟩
  exact ⟨h.1, h.2.1, h.2.2 rfl⟩
